import Mathlib

/-!
Verification of the remote-command fan-out engine in `main.go`.

The repository file `main.go` contains two embedded versions of the same
program: an inline version of `ExecuteRemoteCommands` (lines 38-139) and a
refactored version using the helpers `setupSSHClient` and `executeCommand`
(lines 227-328).  Both are embedded below as `runHost1` / `ExecuteRemoteCommands1`
(inline version) and `runHost2` / `ExecuteRemoteCommands2` (refactored version).

The SSH transport (`golang.org/x/crypto/ssh` plus `os.ReadFile` for the key)
is an external capability; it is modelled by `SSHWorld`, which fixes the
outcome of every capability call: per host index `i`, the outcome of reading
and parsing the key file and of dialing, and per host index `i` and command
index `j`, the outcome of `client.NewSession()`, `session.StdoutPipe()`,
`session.Start(cmd)`, the bytes delivered by `io.ReadAll(stdout)`, and the
result of `session.Wait()`.  Outcomes are indexed by position in the host
list (not by host name), since each goroutine performs its own independent
capability calls.

The Go coordinator collects results from a channel, so arrival order is
nondeterministic; the embedding returns the per-host results in host-list
order, and every theorem below is stated in an order-insensitive way
(lengths, membership, per-index lookup, or per-host values).
-/

namespace Routine

/-- Connection parameters, mirroring the Go struct `SSHConfig`
(`main.go` lines 16-23).  `Timeout` is opaque to the core logic and is
carried as a plain number. -/
structure SSHConfig where
  Hosts : List String
  Port : String
  User : String
  Password : String
  KeyPath : String
  Timeout : Nat
  deriving Repr, DecidableEq

/-- Per-host result, mirroring the Go struct `CommandResult`
(`main.go` lines 26-30).  The Go `error` field is modelled as
`Option String` carrying the formatted error message (`none` = nil). -/
structure CommandResult where
  Hostname : String
  Output : String
  Error : Option String
  deriving Repr, DecidableEq

/-- The external SSH capability (the `golang.org/x/crypto/ssh` library and
`os.ReadFile`), modelled as a fixed table of outcomes.  `readKey i`,
`parseKey i key` and `dial i addr` are the outcomes of the setup calls made
by the goroutine for host index `i`; `newSession i j`, `stdoutPipe i j`,
`start i j`, `readAll i j` and `wait i j` are the outcomes of the session
calls made for command index `j` on host index `i`. -/
structure SSHWorld where
  readKey : Nat → Except String String
  parseKey : Nat → String → Except String Unit
  dial : Nat → String → Except String Unit
  newSession : Nat → Nat → Except String Unit
  stdoutPipe : Nat → Nat → Except String Unit
  start : Nat → Nat → Except String Unit
  readAll : Nat → Nat → String
  wait : Nat → Nat → Except String Unit

/-- The authentication method selected by the credential-selection code.
Mirrors the possible values of the Go variable `authMethod`
(`ssh.PublicKeys(signer)` or `ssh.Password(config.Password)`). -/
inductive AuthSel where
  | publicKeys : AuthSel
  | password : String → AuthSel
  deriving Repr, DecidableEq

/-- The address formatting of the Go code: default port 22 when
`config.Port` is empty, then `fmt.Sprintf("%s:%s", host, port)`
(`main.go` lines 79-83 and 252-256). -/
def formatAddr (host port : String) : String :=
  host ++ ":" ++ (if port = "" then "22" else port)

/-- The credential-selection code, textually identical in both versions
(`main.go` lines 49-70 inline, lines 228-243 in `setupSSHClient`):
if `KeyPath` is non-empty, read and parse the key (failing with
`read key:` / `parse key:` errors); otherwise if `Password` is non-empty,
use password authentication; otherwise fail with `no auth method`. -/
def chooseAuth (w : SSHWorld) (i : Nat) (config : SSHConfig) : Except String AuthSel :=
  if config.KeyPath ≠ "" then
    match w.readKey i with
    | .error e => .error ("read key: " ++ e)
    | .ok key =>
      match w.parseKey i key with
      | .error e => .error ("parse key: " ++ e)
      | .ok _ => .ok (.publicKeys)
  else if config.Password ≠ "" then
    .ok (.password config.Password)
  else
    .error ("no auth method")

/-- The command loop of the inline version (`main.go` lines 93-121),
over the commands paired with their indices.  A `NewSession` or
`StdoutPipe` failure sets the host's terminal error and returns at once;
the Go code never assigns `hostResult.Output` on those paths, so the
output stays empty.  A `Start` failure appends an inline note and
continues.  On success, `session.Wait()` is called and its result is
discarded, and the labeled output is appended. -/
def runCommands1 (w : SSHWorld) (i : Nat) (host : String) :
    List (Nat × String) → String → CommandResult
  | [], acc => { Hostname := host, Output := acc, Error := none }
  | (j, cmd) :: rest, acc =>
    match w.newSession i j with
    | .error e => { Hostname := host, Output := "", Error := some ("session: " ++ e) }
    | .ok _ =>
      match w.stdoutPipe i j with
      | .error e => { Hostname := host, Output := "", Error := some ("stdout pipe: " ++ e) }
      | .ok _ =>
        match w.start i j with
        | .error e =>
          runCommands1 w i host rest
            (acc ++ ("Command \x27" ++ cmd ++ "\x27 failed: " ++ e ++ "\n"))
        | .ok _ =>
          let buf := w.readAll i j
          let _ := w.wait i j
          runCommands1 w i host rest
            (acc ++ ("Command \x27" ++ cmd ++ "\x27 output:\n" ++ buf ++ "\n"))

/-- The goroutine body of the inline version (`main.go` lines 44-125):
credential selection, address formatting, dial, then the command loop.
Auth failures are recorded with the raw selection error; a dial failure is
recorded as `dial <host>: <err>`. -/
def runHost1 (w : SSHWorld) (config : SSHConfig) (commands : List String)
    (i : Nat) (host : String) : CommandResult :=
  match chooseAuth w i config with
  | .error e => { Hostname := host, Output := "", Error := some e }
  | .ok _ =>
    match w.dial i (formatAddr host config.Port) with
    | .error e =>
      { Hostname := host, Output := "", Error := some ("dial " ++ host ++ ": " ++ e) }
    | .ok _ => runCommands1 w i host commands.enum ""

/-- The refactored `setupSSHClient` (`main.go` lines 227-259): credential
selection followed by dial; any failure is returned to the caller as an
error value. -/
def setupSSHClient (w : SSHWorld) (i : Nat) (host : String) (config : SSHConfig) :
    Except String Unit :=
  match chooseAuth w i config with
  | .error e => .error e
  | .ok _ => w.dial i (formatAddr host config.Port)

/-- The refactored `executeCommand` (`main.go` lines 261-280): session
creation, stdout pipe, start, then read; each failure is returned as an
error naming the stage.  `session.Wait()` is called and its result is
discarded; the captured output is returned with a nil error. -/
def executeCommand (w : SSHWorld) (i j : Nat) : Except String String :=
  match w.newSession i j with
  | .error e => .error ("session: " ++ e)
  | .ok _ =>
    match w.stdoutPipe i j with
    | .error e => .error ("stdout pipe: " ++ e)
    | .ok _ =>
      match w.start i j with
      | .error e => .error ("start command: " ++ e)
      | .ok _ =>
        let buf := w.readAll i j
        let _ := w.wait i j
        .ok buf

/-- The command loop of the refactored version (`main.go` lines 302-310):
any `executeCommand` error becomes an inline note and the loop continues;
success appends the labeled output. -/
def runCommands2 (w : SSHWorld) (i : Nat) : List (Nat × String) → String → String
  | [], acc => acc
  | (j, cmd) :: rest, acc =>
    match executeCommand w i j with
    | .error e =>
      runCommands2 w i rest (acc ++ ("Command \x27" ++ cmd ++ "\x27 failed: " ++ e ++ "\n"))
    | .ok output =>
      runCommands2 w i rest (acc ++ ("Command \x27" ++ cmd ++ "\x27 output:\n" ++ output ++ "\n"))

/-- The goroutine body of the refactored version (`main.go` lines 289-314):
any `setupSSHClient` failure is recorded as `dial <host>: <err>`; otherwise
the command loop runs and its accumulated output is stored with a nil
error. -/
def runHost2 (w : SSHWorld) (config : SSHConfig) (commands : List String)
    (i : Nat) (host : String) : CommandResult :=
  match setupSSHClient w i host config with
  | .error e =>
    { Hostname := host, Output := "", Error := some ("dial " ++ host ++ ": " ++ e) }
  | .ok _ =>
    { Hostname := host, Output := runCommands2 w i commands.enum "", Error := none }

/-- The inline version of `ExecuteRemoteCommands` (`main.go` lines 38-139):
one unit of work per host, exactly one result per unit.  Results are listed
in host order (the Go channel delivers them in nondeterministic arrival
order; all theorems below are order-insensitive). -/
def ExecuteRemoteCommands1 (w : SSHWorld) (config : SSHConfig)
    (commands : List String) : List CommandResult :=
  config.Hosts.enum.map (fun p => runHost1 w config commands p.1 p.2)

/-- The refactored version of `ExecuteRemoteCommands` (`main.go` lines
283-328), same coordinator shape as the inline version. -/
def ExecuteRemoteCommands2 (w : SSHWorld) (config : SSHConfig)
    (commands : List String) : List CommandResult :=
  config.Hosts.enum.map (fun p => runHost2 w config commands p.1 p.2)

/-- Concatenation of a list of output-blob entries. -/
def joinAll : List String → String
  | [] => ""
  | s :: rest => s ++ joinAll rest

/-- The blob entry the inline version produces for command `p.2` at index
`p.1`, in the case where its session and pipe succeed: a failure note on a
start error, else the labeled captured output. -/
def entry1 (w : SSHWorld) (i : Nat) (p : Nat × String) : String :=
  match w.start i p.1 with
  | .error e => "Command \x27" ++ p.2 ++ "\x27 failed: " ++ e ++ "\n"
  | .ok _ => "Command \x27" ++ p.2 ++ "\x27 output:\n" ++ w.readAll i p.1 ++ "\n"

/-- The blob entry the refactored version produces for command `p.2` at
index `p.1`: a failure note naming the command on any `executeCommand`
error, else the labeled captured output. -/
def entry2 (w : SSHWorld) (i : Nat) (p : Nat × String) : String :=
  match executeCommand w i p.1 with
  | .error e => "Command \x27" ++ p.2 ++ "\x27 failed: " ++ e ++ "\n"
  | .ok output => "Command \x27" ++ p.2 ++ "\x27 output:\n" ++ output ++ "\n"

/-! ### State-threaded forms (frame property)

The per-host goroutines read the shared `SSHConfig` value and the shared
command list but the Go source contains no assignment to either (`config`
and `commands` are only ever read).  The state-threaded forms below make
that explicit: the pair `SSHConfig × List String` is passed through every
step of the translation, so that "the inputs after the call" is a
well-defined value to compare with the inputs before the call. -/

/-- State-threaded command loop of the inline version: same steps as
`runCommands1`, with the shared state passed through. -/
def runCommands1St (w : SSHWorld) (i : Nat) (host : String) :
    List (Nat × String) → String → SSHConfig × List String →
      CommandResult × (SSHConfig × List String)
  | [], acc, st => ({ Hostname := host, Output := acc, Error := none }, st)
  | (j, cmd) :: rest, acc, st =>
    match w.newSession i j with
    | .error e =>
      ({ Hostname := host, Output := "", Error := some ("session: " ++ e) }, st)
    | .ok _ =>
      match w.stdoutPipe i j with
      | .error e =>
        ({ Hostname := host, Output := "", Error := some ("stdout pipe: " ++ e) }, st)
      | .ok _ =>
        match w.start i j with
        | .error e =>
          runCommands1St w i host rest
            (acc ++ ("Command \x27" ++ cmd ++ "\x27 failed: " ++ e ++ "\n")) st
        | .ok _ =>
          runCommands1St w i host rest
            (acc ++ ("Command \x27" ++ cmd ++ "\x27 output:\n" ++ w.readAll i j ++ "\n")) st

/-- State-threaded goroutine body of the inline version; the config and the
command list are read from the state. -/
def runHost1St (w : SSHWorld) (i : Nat) (host : String)
    (st : SSHConfig × List String) : CommandResult × (SSHConfig × List String) :=
  match chooseAuth w i st.1 with
  | .error e => ({ Hostname := host, Output := "", Error := some e }, st)
  | .ok _ =>
    match w.dial i (formatAddr host st.1.Port) with
    | .error e =>
      ({ Hostname := host, Output := "", Error := some ("dial " ++ host ++ ": " ++ e) }, st)
    | .ok _ => runCommands1St w i host st.2.enum "" st

/-- State-threaded command loop of the refactored version. -/
def runCommands2St (w : SSHWorld) (i : Nat) :
    List (Nat × String) → String → SSHConfig × List String →
      String × (SSHConfig × List String)
  | [], acc, st => (acc, st)
  | (j, cmd) :: rest, acc, st =>
    match executeCommand w i j with
    | .error e =>
      runCommands2St w i rest
        (acc ++ ("Command \x27" ++ cmd ++ "\x27 failed: " ++ e ++ "\n")) st
    | .ok output =>
      runCommands2St w i rest
        (acc ++ ("Command \x27" ++ cmd ++ "\x27 output:\n" ++ output ++ "\n")) st

/-- State-threaded goroutine body of the refactored version. -/
def runHost2St (w : SSHWorld) (i : Nat) (host : String)
    (st : SSHConfig × List String) : CommandResult × (SSHConfig × List String) :=
  match setupSSHClient w i host st.1 with
  | .error e =>
    ({ Hostname := host, Output := "", Error := some ("dial " ++ host ++ ": " ++ e) }, st)
  | .ok _ =>
    let r := runCommands2St w i st.2.enum "" st
    ({ Hostname := host, Output := r.1, Error := none }, r.2)

/-- State-threaded host loop of the inline version: the state leaving one
unit of work enters the next. -/
def hostLoop1St (w : SSHWorld) :
    List (Nat × String) → SSHConfig × List String →
      List CommandResult × (SSHConfig × List String)
  | [], st => ([], st)
  | (i, host) :: rest, st =>
    let r := runHost1St w i host st
    let rs := hostLoop1St w rest r.2
    (r.1 :: rs.1, rs.2)

/-- State-threaded host loop of the refactored version. -/
def hostLoop2St (w : SSHWorld) :
    List (Nat × String) → SSHConfig × List String →
      List CommandResult × (SSHConfig × List String)
  | [], st => ([], st)
  | (i, host) :: rest, st =>
    let r := runHost2St w i host st
    let rs := hostLoop2St w rest r.2
    (r.1 :: rs.1, rs.2)

/-- State-threaded inline `ExecuteRemoteCommands`: returns the results
together with the final value of the inputs. -/
def ExecuteRemoteCommands1St (w : SSHWorld) (st : SSHConfig × List String) :
    List CommandResult × (SSHConfig × List String) :=
  hostLoop1St w st.1.Hosts.enum st

/-- State-threaded refactored `ExecuteRemoteCommands`. -/
def ExecuteRemoteCommands2St (w : SSHWorld) (st : SSHConfig × List String) :
    List CommandResult × (SSHConfig × List String) :=
  hostLoop2St w st.1.Hosts.enum st

/-! ### Concrete capability tables and configurations, used to evaluate the
theorems on closed inputs -/

/-- A capability table on which every call succeeds: the key file reads and
parses, every dial succeeds, and every command produces the output `out`. -/
def wOk : SSHWorld where
  readKey := fun _ => .ok ("KEY")
  parseKey := fun _ _ => .ok ()
  dial := fun _ _ => .ok ()
  newSession := fun _ _ => .ok ()
  stdoutPipe := fun _ _ => .ok ()
  start := fun _ _ => .ok ()
  readAll := fun _ _ => "out"
  wait := fun _ _ => .ok ()

/-- Like `wOk` but every `NewSession` call fails with `boom`. -/
def wSessFail : SSHWorld :=
  { wOk with newSession := fun _ _ => .error ("boom") }

/-- Like `wOk` but every command exits abnormally: `session.Wait()` reports
`exit status 1`, and the bytes drained before the failure are `partial`. -/
def wWaitFail : SSHWorld :=
  { wOk with wait := fun _ _ => .error ("exit status 1"),
             readAll := fun _ _ => "partial" }

/-- Like `wOk` but every dial is refused. -/
def wDialFail : SSHWorld :=
  { wOk with dial := fun _ _ => .error ("refused") }

/-- Like `wOk` but the dial for host index 0 fails; all other hosts are
healthy. -/
def wBad0 : SSHWorld :=
  { wOk with dial := fun i _ => if i = 0 then .error ("down") else .ok () }

/-- Like `wOk` but the command at index 1 fails to start. -/
def wStart1Fail : SSHWorld :=
  { wOk with start := fun _ j => if j = 1 then .error ("bad") else .ok () }

/-- Password-authenticated configuration with two hosts. -/
def cfgPw : SSHConfig where
  Hosts := ["h1", "h2"]
  Port := ""
  User := "u"
  Password := "p"
  KeyPath := ""
  Timeout := 5

/-- Password-authenticated configuration with a single host. -/
def cfgPw1 : SSHConfig where
  Hosts := ["h"]
  Port := ""
  User := "u"
  Password := "p"
  KeyPath := ""
  Timeout := 5

/-- Configuration with no usable credential: both `Password` and `KeyPath`
are empty. -/
def cfgNoAuth : SSHConfig where
  Hosts := ["h"]
  Port := ""
  User := "u"
  Password := ""
  KeyPath := ""
  Timeout := 5

/-! ### Helper lemmas -/

theorem runCommands1_hostname (w : SSHWorld) (i : Nat) (host : String) :
    ∀ (l : List (Nat × String)) (acc : String),
      (runCommands1 w i host l acc).Hostname = host := by
  intro l
  induction l with
  | nil => intro acc; rfl
  | cons p rest ih =>
    intro acc
    obtain ⟨j, cmd⟩ := p
    simp only [runCommands1]
    split
    · rfl
    · split
      · rfl
      · split
        · exact ih _
        · exact ih _

theorem runHost1_hostname (w : SSHWorld) (config : SSHConfig) (commands : List String)
    (i : Nat) (host : String) : (runHost1 w config commands i host).Hostname = host := by
  simp only [runHost1]
  split
  · rfl
  · split
    · rfl
    · exact runCommands1_hostname w i host commands.enum ""

theorem runHost2_hostname (w : SSHWorld) (config : SSHConfig) (commands : List String)
    (i : Nat) (host : String) : (runHost2 w config commands i host).Hostname = host := by
  simp only [runHost2]
  split <;> rfl

theorem runCommands2_acc (w : SSHWorld) (i : Nat) :
    ∀ (l : List (Nat × String)) (acc : String),
      runCommands2 w i l acc = acc ++ joinAll (l.map (entry2 w i)) := by
  intro l
  induction l with
  | nil => intro acc; simp [runCommands2, joinAll]
  | cons p rest ih =>
    intro acc
    obtain ⟨j, cmd⟩ := p
    simp only [runCommands2, List.map_cons, joinAll, entry2]
    split
    · rw [ih, String.append_assoc]
    · rw [ih, String.append_assoc]

theorem runCommands1_ok (w : SSHWorld) (i : Nat) (host : String) :
    ∀ (l : List (Nat × String)) (acc : String),
      (∀ p ∈ l, w.newSession i p.1 = .ok () ∧ w.stdoutPipe i p.1 = .ok ()) →
      runCommands1 w i host l acc =
        { Hostname := host, Output := acc ++ joinAll (l.map (entry1 w i)), Error := none } := by
  intro l
  induction l with
  | nil => intro acc _; simp [runCommands1, joinAll]
  | cons p rest ih =>
    intro acc hok
    obtain ⟨j, cmd⟩ := p
    have hj := hok (j, cmd) (List.mem_cons_self _ _)
    simp only [runCommands1, hj.1, hj.2]
    have hrest : ∀ p ∈ rest, w.newSession i p.1 = .ok () ∧ w.stdoutPipe i p.1 = .ok () :=
      fun p hp => hok p (List.mem_cons_of_mem _ hp)
    simp only [List.map_cons, joinAll, entry1]
    split
    · rw [ih _ hrest, String.append_assoc]
    · rw [ih _ hrest, String.append_assoc]

theorem runCommands1_error_none (w : SSHWorld) (i : Nat) (host : String) :
    ∀ (l : List (Nat × String)) (acc : String),
      (runCommands1 w i host l acc).Error = none →
      (runCommands1 w i host l acc).Output = acc ++ joinAll (l.map (entry1 w i)) := by
  intro l
  induction l with
  | nil => intro acc _; simp [runCommands1, joinAll]
  | cons p rest ih =>
    intro acc h
    obtain ⟨j, cmd⟩ := p
    simp only [runCommands1] at h ⊢
    split at h
    · simp at h
    · split at h
      · simp at h
      · simp only [List.map_cons, joinAll, entry1]
        split at h
        · rw [ih _ h, String.append_assoc]
        · rw [ih _ h, String.append_assoc]

theorem runCommands1_some_output (w : SSHWorld) (i : Nat) (host : String) :
    ∀ (l : List (Nat × String)) (acc : String),
      (runCommands1 w i host l acc).Error ≠ none →
      (runCommands1 w i host l acc).Output = "" := by
  intro l
  induction l with
  | nil => intro acc h; exact absurd rfl h
  | cons p rest ih =>
    intro acc h
    obtain ⟨j, cmd⟩ := p
    simp only [runCommands1] at h ⊢
    split at h
    · rfl
    · split at h
      · rfl
      · split at h
        · exact ih _ h
        · exact ih _ h

theorem runHost1_some_output (w : SSHWorld) (config : SSHConfig) (commands : List String)
    (i : Nat) (host : String) :
    (runHost1 w config commands i host).Error ≠ none →
    (runHost1 w config commands i host).Output = "" := by
  simp only [runHost1]
  split
  · intro _; rfl
  · split
    · intro _; rfl
    · exact runCommands1_some_output w i host commands.enum ""

theorem runHost2_some_output (w : SSHWorld) (config : SSHConfig) (commands : List String)
    (i : Nat) (host : String) :
    (runHost2 w config commands i host).Error ≠ none →
    (runHost2 w config commands i host).Output = "" := by
  simp only [runHost2]
  split
  · intro _; rfl
  · intro h; exact absurd rfl h

theorem chooseAuth_congr (w w' : SSHWorld) (i : Nat) (config : SSHConfig)
    (hrk : w'.readKey i = w.readKey i) (hpk : w'.parseKey i = w.parseKey i) :
    chooseAuth w' i config = chooseAuth w i config := by
  simp only [chooseAuth, hrk, hpk]

theorem runCommands1_congr (w w' : SSHWorld) (i : Nat) (host : String)
    (hns : w'.newSession i = w.newSession i) (hsp : w'.stdoutPipe i = w.stdoutPipe i)
    (hst : w'.start i = w.start i) (hra : w'.readAll i = w.readAll i) :
    ∀ (l : List (Nat × String)) (acc : String),
      runCommands1 w' i host l acc = runCommands1 w i host l acc := by
  intro l
  induction l with
  | nil => intro acc; rfl
  | cons p rest ih =>
    intro acc
    obtain ⟨j, cmd⟩ := p
    simp only [runCommands1, hns, hsp, hst, hra]
    split
    · rfl
    · split
      · rfl
      · split
        · exact ih _
        · exact ih _

theorem executeCommand_congr (w w' : SSHWorld) (i : Nat)
    (hns : w'.newSession i = w.newSession i) (hsp : w'.stdoutPipe i = w.stdoutPipe i)
    (hst : w'.start i = w.start i) (hra : w'.readAll i = w.readAll i) :
    ∀ j, executeCommand w' i j = executeCommand w i j := by
  intro j
  simp only [executeCommand, hns, hsp, hst, hra]

theorem runCommands2_congr (w w' : SSHWorld) (i : Nat)
    (hns : w'.newSession i = w.newSession i) (hsp : w'.stdoutPipe i = w.stdoutPipe i)
    (hst : w'.start i = w.start i) (hra : w'.readAll i = w.readAll i) :
    ∀ (l : List (Nat × String)) (acc : String),
      runCommands2 w' i l acc = runCommands2 w i l acc := by
  intro l
  induction l with
  | nil => intro acc; rfl
  | cons p rest ih =>
    intro acc
    obtain ⟨j, cmd⟩ := p
    simp only [runCommands2, executeCommand_congr w w' i hns hsp hst hra]
    split
    · exact ih _
    · exact ih _

theorem runHost1_congr (w w' : SSHWorld) (config : SSHConfig) (commands : List String)
    (i : Nat) (host : String)
    (hrk : w'.readKey i = w.readKey i) (hpk : w'.parseKey i = w.parseKey i)
    (hd : w'.dial i = w.dial i)
    (hns : w'.newSession i = w.newSession i) (hsp : w'.stdoutPipe i = w.stdoutPipe i)
    (hst : w'.start i = w.start i) (hra : w'.readAll i = w.readAll i) :
    runHost1 w' config commands i host = runHost1 w config commands i host := by
  simp only [runHost1, chooseAuth_congr w w' i config hrk hpk, hd]
  split
  · rfl
  · split
    · rfl
    · exact runCommands1_congr w w' i host hns hsp hst hra commands.enum ""

theorem runHost2_congr (w w' : SSHWorld) (config : SSHConfig) (commands : List String)
    (i : Nat) (host : String)
    (hrk : w'.readKey i = w.readKey i) (hpk : w'.parseKey i = w.parseKey i)
    (hd : w'.dial i = w.dial i)
    (hns : w'.newSession i = w.newSession i) (hsp : w'.stdoutPipe i = w.stdoutPipe i)
    (hst : w'.start i = w.start i) (hra : w'.readAll i = w.readAll i) :
    runHost2 w' config commands i host = runHost2 w config commands i host := by
  simp only [runHost2, setupSSHClient, chooseAuth_congr w w' i config hrk hpk, hd,
    runCommands2_congr w w' i hns hsp hst hra]

theorem runCommands1St_eq (w : SSHWorld) (i : Nat) (host : String) :
    ∀ (l : List (Nat × String)) (acc : String) (st : SSHConfig × List String),
      runCommands1St w i host l acc st = (runCommands1 w i host l acc, st) := by
  intro l
  induction l with
  | nil => intro acc st; rfl
  | cons p rest ih =>
    intro acc st
    obtain ⟨j, cmd⟩ := p
    simp only [runCommands1St, runCommands1]
    split
    · rfl
    · split
      · rfl
      · split
        · exact ih _ _
        · exact ih _ _

theorem runCommands2St_eq (w : SSHWorld) (i : Nat) :
    ∀ (l : List (Nat × String)) (acc : String) (st : SSHConfig × List String),
      runCommands2St w i l acc st = (runCommands2 w i l acc, st) := by
  intro l
  induction l with
  | nil => intro acc st; rfl
  | cons p rest ih =>
    intro acc st
    obtain ⟨j, cmd⟩ := p
    simp only [runCommands2St, runCommands2]
    split
    · exact ih _ _
    · exact ih _ _

theorem runHost1St_eq (w : SSHWorld) (i : Nat) (host : String)
    (st : SSHConfig × List String) :
    runHost1St w i host st = (runHost1 w st.1 st.2 i host, st) := by
  simp only [runHost1St, runHost1]
  split
  · rfl
  · split
    · rfl
    · exact runCommands1St_eq w i host st.2.enum "" st

theorem runHost2St_eq (w : SSHWorld) (i : Nat) (host : String)
    (st : SSHConfig × List String) :
    runHost2St w i host st = (runHost2 w st.1 st.2 i host, st) := by
  simp only [runHost2St, runHost2]
  split
  · rfl
  · rw [runCommands2St_eq w i st.2.enum "" st]

theorem hostLoop1St_eq (w : SSHWorld) :
    ∀ (l : List (Nat × String)) (st : SSHConfig × List String),
      hostLoop1St w l st =
        (l.map (fun p => runHost1 w st.1 st.2 p.1 p.2), st) := by
  intro l
  induction l with
  | nil => intro st; rfl
  | cons p rest ih =>
    intro st
    obtain ⟨i, host⟩ := p
    simp only [hostLoop1St, runHost1St_eq, ih, List.map_cons]

theorem hostLoop2St_eq (w : SSHWorld) :
    ∀ (l : List (Nat × String)) (st : SSHConfig × List String),
      hostLoop2St w l st =
        (l.map (fun p => runHost2 w st.1 st.2 p.1 p.2), st) := by
  intro l
  induction l with
  | nil => intro st; rfl
  | cons p rest ih =>
    intro st
    obtain ⟨i, host⟩ := p
    simp only [hostLoop2St, runHost2St_eq, ih, List.map_cons]

/-! ### Claims -/

/-- C1: For every host list of size N (including N = 0) and every non-empty
command list, both versions of `ExecuteRemoteCommands` return exactly one
per-host result per input host: the hostnames of the results are exactly the
input hosts in host order, hence exactly N results regardless of how many
hosts fail, and the empty host list yields the empty result set. -/
theorem C1_one_result_per_host (w : SSHWorld) (config : SSHConfig)
    (commands : List String) (_hc : commands ≠ []) :
    (ExecuteRemoteCommands1 w config commands).map CommandResult.Hostname = config.Hosts ∧
    (ExecuteRemoteCommands2 w config commands).map CommandResult.Hostname = config.Hosts ∧
    (ExecuteRemoteCommands1 w config commands).length = config.Hosts.length ∧
    (ExecuteRemoteCommands2 w config commands).length = config.Hosts.length ∧
    (config.Hosts = [] → ExecuteRemoteCommands1 w config commands = [] ∧
      ExecuteRemoteCommands2 w config commands = []) := by
  refine ⟨?_, ?_, ?_, ?_, ?_⟩
  · rw [ExecuteRemoteCommands1, List.map_map]
    have h1 : ∀ p ∈ config.Hosts.enum,
        (CommandResult.Hostname ∘ fun p : Nat × String =>
          runHost1 w config commands p.1 p.2) p = Prod.snd p :=
      fun p _ => runHost1_hostname w config commands p.1 p.2
    rw [List.map_congr_left h1, List.enum_map_snd]
  · rw [ExecuteRemoteCommands2, List.map_map]
    have h2 : ∀ p ∈ config.Hosts.enum,
        (CommandResult.Hostname ∘ fun p : Nat × String =>
          runHost2 w config commands p.1 p.2) p = Prod.snd p :=
      fun p _ => runHost2_hostname w config commands p.1 p.2
    rw [List.map_congr_left h2, List.enum_map_snd]
  · simp [ExecuteRemoteCommands1, List.enum_length]
  · simp [ExecuteRemoteCommands2, List.enum_length]
  · intro h
    simp [ExecuteRemoteCommands1, ExecuteRemoteCommands2, h]

/-- Witness for C1 on a concrete two-host run. -/
theorem C1_one_result_per_host_witness :
    (ExecuteRemoteCommands1 wOk cfgPw ["c"]).map CommandResult.Hostname = cfgPw.Hosts ∧
    (ExecuteRemoteCommands2 wOk cfgPw ["c"]).map CommandResult.Hostname = cfgPw.Hosts :=
  ⟨(C1_one_result_per_host wOk cfgPw ["c"] (by decide)).1,
   (C1_one_result_per_host wOk cfgPw ["c"] (by decide)).2.1⟩

/-- C2: A host whose setup fails (cannot read or parse the key, no usable
credential, or dial failure) gets a result with its terminal error set and
an empty output blob; no commands are attempted for it (the result is
unchanged under any change to the session-stage capability outcomes); and
the run still returns one result per host. -/
theorem C2_host_level_failure (w w' : SSHWorld) (config : SSHConfig)
    (commands : List String) (i : Nat) (host : String) (e : String)
    (hsetup : setupSSHClient w i host config = .error e)
    (hrk : w'.readKey = w.readKey) (hpk : w'.parseKey = w.parseKey)
    (hd : w'.dial = w.dial) :
    (runHost1 w config commands i host).Output = "" ∧
    (runHost1 w config commands i host).Error.isSome = true ∧
    runHost2 w config commands i host =
      { Hostname := host, Output := "",
        Error := some ("dial " ++ host ++ ": " ++ e) } ∧
    runHost1 w' config commands i host = runHost1 w config commands i host ∧
    runHost2 w' config commands i host = runHost2 w config commands i host ∧
    (ExecuteRemoteCommands1 w config commands).length = config.Hosts.length ∧
    (ExecuteRemoteCommands2 w config commands).length = config.Hosts.length := by
  have hca : chooseAuth w' i config = chooseAuth w i config :=
    chooseAuth_congr w w' i config (congrFun hrk i) (congrFun hpk i)
  simp only [setupSSHClient] at hsetup
  cases hc : chooseAuth w i config with
  | error e0 =>
    simp only [hc, Except.error.injEq] at hsetup
    subst hsetup
    refine ⟨?_, ?_, ?_, ?_, ?_, ?_, ?_⟩
    · simp [runHost1, hc]
    · simp [runHost1, hc]
    · simp [runHost2, setupSSHClient, hc]
    · simp only [runHost1, hca, hc]
    · simp only [runHost2, setupSSHClient, hca, hc]
    · simp [ExecuteRemoteCommands1, List.enum_length]
    · simp [ExecuteRemoteCommands2, List.enum_length]
  | ok a =>
    simp only [hc] at hsetup
    refine ⟨?_, ?_, ?_, ?_, ?_, ?_, ?_⟩
    · simp [runHost1, hc, hsetup]
    · simp [runHost1, hc, hsetup]
    · simp [runHost2, setupSSHClient, hc, hsetup]
    · simp only [runHost1, hca, hc, congrFun hd i, hsetup]
    · simp only [runHost2, setupSSHClient, hca, hc, congrFun hd i, hsetup]
    · simp [ExecuteRemoteCommands1, List.enum_length]
    · simp [ExecuteRemoteCommands2, List.enum_length]

/-- Witness for C2 on a concrete refused dial. -/
theorem C2_host_level_failure_witness :
    runHost2 wDialFail cfgPw ["c"] 0 "h1" =
      { Hostname := "h1", Output := "",
        Error := some ("dial " ++ "h1" ++ ": " ++ "refused") } :=
  (C2_host_level_failure wDialFail wDialFail cfgPw ["c"] 0 "h1" "refused"
    rfl rfl rfl rfl).2.2.1

/-- C5: Within one host's output blob, the per-command entries (labeled
outputs and failure notes) appear exactly in command-list order: whenever a
host's terminal error is unset, its blob is the in-order concatenation of
one entry per command. -/
theorem C5_output_ordering (w : SSHWorld) (config : SSHConfig)
    (commands : List String) (i : Nat) (host : String) :
    ((runHost1 w config commands i host).Error = none →
      (runHost1 w config commands i host).Output =
        joinAll (commands.enum.map (entry1 w i))) ∧
    ((runHost2 w config commands i host).Error = none →
      (runHost2 w config commands i host).Output =
        joinAll (commands.enum.map (entry2 w i))) := by
  constructor
  · intro h
    simp only [runHost1] at h ⊢
    split at h
    · simp at h
    · split at h
      · simp at h
      · have h2 := runCommands1_error_none w i host commands.enum "" h
        rwa [String.empty_append] at h2
  · intro h
    simp only [runHost2] at h ⊢
    split at h
    · simp at h
    · rw [runCommands2_acc, String.empty_append]

/-- Witness for C5 on a run whose second command fails to start. -/
theorem C5_output_ordering_witness :
    (runHost1 wStart1Fail cfgPw ["a", "b", "c"] 0 "h1").Output =
      joinAll ((["a", "b", "c"].enum).map (entry1 wStart1Fail 0)) :=
  (C5_output_ordering wStart1Fail cfgPw ["a", "b", "c"] 0 "h1").1 rfl

/-- C9: In both versions, every returned result with a set terminal error
has an empty output blob: partial output accumulated before a mid-run
terminal failure is discarded, never returned next to the error. -/
theorem C9_error_implies_empty_output (w : SSHWorld) (config : SSHConfig)
    (commands : List String) (r : CommandResult)
    (hr : r ∈ ExecuteRemoteCommands1 w config commands ∨
          r ∈ ExecuteRemoteCommands2 w config commands)
    (he : r.Error ≠ none) : r.Output = "" := by
  rcases hr with h | h
  · simp only [ExecuteRemoteCommands1] at h
    rcases List.mem_map.mp h with ⟨p, _, rfl⟩
    exact runHost1_some_output w config commands p.1 p.2 he
  · simp only [ExecuteRemoteCommands2] at h
    rcases List.mem_map.mp h with ⟨p, _, rfl⟩
    exact runHost2_some_output w config commands p.1 p.2 he

/-- Witness for C9 on a session failure that interrupts the second of two
commands after the first already produced output. -/
theorem C9_error_implies_empty_output_witness :
    ({ Hostname := "h", Output := "",
       Error := some ("session: " ++ "boom") } : CommandResult).Output = "" :=
  C9_error_implies_empty_output wSessFail cfgPw1 ["c1", "c2"]
    { Hostname := "h", Output := "", Error := some ("session: " ++ "boom") }
    (Or.inl (by decide)) (by decide)

/-- C10: Neither version mutates its inputs: threading the `SSHConfig`
value and the command list through every step of both translations as
explicit state, the state after the call equals the state before it, and
the results are the same as the pure functions produce. -/
theorem C10_no_input_mutation (w : SSHWorld) (st : SSHConfig × List String) :
    (ExecuteRemoteCommands1St w st).2 = st ∧
    (ExecuteRemoteCommands2St w st).2 = st ∧
    (ExecuteRemoteCommands1St w st).1 = ExecuteRemoteCommands1 w st.1 st.2 ∧
    (ExecuteRemoteCommands2St w st).1 = ExecuteRemoteCommands2 w st.1 st.2 := by
  refine ⟨?_, ?_, ?_, ?_⟩ <;>
    simp [ExecuteRemoteCommands1St, ExecuteRemoteCommands2St, hostLoop1St_eq,
      hostLoop2St_eq, ExecuteRemoteCommands1, ExecuteRemoteCommands2]

/-- C3 (counterexample): in the inline version, a host whose connection is
established (its dial outcome is a success) but whose first command's
session cannot be created does NOT get an inline failure note: its terminal
error is set to `session: boom`, its output blob stays empty, and the
remaining command is never reached — contradicting the claim that the host
is not marked as failed. -/
theorem C3_counterexample :
    wSessFail.dial 0 (formatAddr "h" cfgPw1.Port) = .ok () ∧
    runHost1 wSessFail cfgPw1 ["c1", "c2"] 0 "h" =
      { Hostname := "h", Output := "", Error := some ("session: " ++ "boom") } ∧
    (runHost1 wSessFail cfgPw1 ["c1", "c2"] 0 "h").Error ≠ none := by
  refine ⟨rfl, rfl, ?_⟩
  decide

/-- C3 (amended): in the refactored version, every command-level failure
(session creation, stdout pipe, or start) on a connected host becomes an
inline note naming the command, execution continues with the next command
and the host's terminal error stays unset.  In the inline version this
holds only for start failures, and only when no session-creation or
stdout-pipe failure occurs; a session-creation failure there (and likewise
a stdout-pipe failure) sets the host's terminal error, empties the blob
and aborts the remaining commands. -/
theorem C3_amended_command_failure (w : SSHWorld) (config : SSHConfig)
    (commands : List String) (i : Nat) (host : String) (a : AuthSel)
    (hauth : chooseAuth w i config = .ok a)
    (hdial : w.dial i (formatAddr host config.Port) = .ok ()) :
    runHost2 w config commands i host =
      { Hostname := host, Output := joinAll (commands.enum.map (entry2 w i)),
        Error := none } ∧
    (∀ p : Nat × String, ∀ e, executeCommand w i p.1 = .error e →
      entry2 w i p = "Command \x27" ++ p.2 ++ "\x27 failed: " ++ e ++ "\n") ∧
    ((∀ p ∈ commands.enum,
        w.newSession i p.1 = .ok () ∧ w.stdoutPipe i p.1 = .ok ()) →
      runHost1 w config commands i host =
        { Hostname := host, Output := joinAll (commands.enum.map (entry1 w i)),
          Error := none }) ∧
    (∀ p : Nat × String, ∀ e, w.start i p.1 = .error e →
      entry1 w i p = "Command \x27" ++ p.2 ++ "\x27 failed: " ++ e ++ "\n") ∧
    (∀ (j : Nat) (cmd : String) (rest : List (Nat × String)) (acc e : String),
      w.newSession i j = .error e →
      runCommands1 w i host ((j, cmd) :: rest) acc =
        { Hostname := host, Output := "", Error := some ("session: " ++ e) }) ∧
    (∀ (j : Nat) (cmd : String) (rest : List (Nat × String)) (acc e : String),
      w.newSession i j = .ok () → w.stdoutPipe i j = .error e →
      runCommands1 w i host ((j, cmd) :: rest) acc =
        { Hostname := host, Output := "", Error := some ("stdout pipe: " ++ e) }) := by
  refine ⟨?_, ?_, ?_, ?_, ?_, ?_⟩
  · simp only [runHost2, setupSSHClient, hauth, hdial]
    rw [runCommands2_acc, String.empty_append]
  · intro p e he
    simp only [entry2, he]
  · intro hok
    simp only [runHost1, hauth, hdial]
    have h2 := runCommands1_ok w i host commands.enum "" hok
    rwa [String.empty_append] at h2
  · intro p e he
    simp only [entry1, he]
  · intro j cmd rest acc e he
    simp only [runCommands1, he]
  · intro j cmd rest acc e hok he
    simp only [runCommands1, hok, he]

/-- Witness for the amended C3: a start failure of the command at index 1
yields an inline note and a nil terminal error. -/
theorem C3_amended_command_failure_witness :
    runHost2 wStart1Fail cfgPw1 ["a", "b"] 0 "h" =
      { Hostname := "h",
        Output := joinAll ((["a", "b"].enum).map (entry2 wStart1Fail 0)),
        Error := none } :=
  (C3_amended_command_failure wStart1Fail cfgPw1 ["a", "b"] 0 "h"
    (.password "p") rfl rfl).1

/-- C4 (counterexample): a command that starts but exits abnormally — the
capability records `exit status 1` as the `session.Wait()` outcome — is
recorded as a NORMAL labeled output built from the drained bytes, not as a
failure note, in both versions: both call `session.Wait()` and discard its
result. -/
theorem C4_counterexample :
    wWaitFail.wait 0 0 = .error ("exit status 1") ∧
    runHost1 wWaitFail cfgPw1 ["c"] 0 "h" =
      { Hostname := "h", Output := "Command \x27c\x27 output:\npartial\n",
        Error := none } ∧
    runHost2 wWaitFail cfgPw1 ["c"] 0 "h" =
      { Hostname := "h", Output := "Command \x27c\x27 output:\npartial\n",
        Error := none } :=
  ⟨rfl, rfl, rfl⟩

/-- C4 (amended): once a command's session, pipe and start succeed, its
blob entry is the labeled captured output in both versions, whatever
`session.Wait()` reports; the entire result set of both versions is
unchanged under any change of the `wait` outcomes, because both versions
discard them. -/
theorem C4_amended_wait_ignored (w : SSHWorld)
    (g : Nat → Nat → Except String Unit) (config : SSHConfig)
    (commands : List String) (i : Nat) (p : Nat × String)
    (hns : w.newSession i p.1 = .ok ()) (hsp : w.stdoutPipe i p.1 = .ok ())
    (hst : w.start i p.1 = .ok ()) :
    entry1 w i p =
      "Command \x27" ++ p.2 ++ "\x27 output:\n" ++ w.readAll i p.1 ++ "\n" ∧
    entry2 w i p =
      "Command \x27" ++ p.2 ++ "\x27 output:\n" ++ w.readAll i p.1 ++ "\n" ∧
    ExecuteRemoteCommands1 { w with wait := g } config commands =
      ExecuteRemoteCommands1 w config commands ∧
    ExecuteRemoteCommands2 { w with wait := g } config commands =
      ExecuteRemoteCommands2 w config commands := by
  refine ⟨?_, ?_, ?_, ?_⟩
  · simp only [entry1, hst]
  · simp only [entry2, executeCommand, hns, hsp, hst]
  · simp only [ExecuteRemoteCommands1]
    exact List.map_congr_left fun p _ =>
      runHost1_congr w { w with wait := g } config commands p.1 p.2
        rfl rfl rfl rfl rfl rfl rfl
  · simp only [ExecuteRemoteCommands2]
    exact List.map_congr_left fun p _ =>
      runHost2_congr w { w with wait := g } config commands p.1 p.2
        rfl rfl rfl rfl rfl rfl rfl

/-- Witness for the amended C4 on the all-success capability table. -/
theorem C4_amended_wait_ignored_witness :
    entry1 wOk 0 (0, "c") =
      "Command \x27" ++ "c" ++ "\x27 output:\n" ++ wOk.readAll 0 0 ++ "\n" :=
  (C4_amended_wait_ignored wOk (fun _ _ => .ok ()) cfgPw1 ["c"] 0 (0, "c")
    rfl rfl rfl).1

/-- C6: failure isolation — if two capability tables agree on every host
index other than `i` (so only host `i`'s dial/auth/command outcomes may
differ), then for every other position `j` the per-host result is
identical in the two runs, in both versions. -/
theorem C6_failure_isolation (w w' : SSHWorld) (config : SSHConfig)
    (commands : List String) (i : Nat)
    (hrk : ∀ j, j ≠ i → w'.readKey j = w.readKey j)
    (hpk : ∀ j, j ≠ i → w'.parseKey j = w.parseKey j)
    (hd : ∀ j, j ≠ i → w'.dial j = w.dial j)
    (hns : ∀ j, j ≠ i → w'.newSession j = w.newSession j)
    (hsp : ∀ j, j ≠ i → w'.stdoutPipe j = w.stdoutPipe j)
    (hst : ∀ j, j ≠ i → w'.start j = w.start j)
    (hra : ∀ j, j ≠ i → w'.readAll j = w.readAll j) :
    ∀ j, j ≠ i →
      (ExecuteRemoteCommands1 w' config commands)[j]? =
        (ExecuteRemoteCommands1 w config commands)[j]? ∧
      (ExecuteRemoteCommands2 w' config commands)[j]? =
        (ExecuteRemoteCommands2 w config commands)[j]? := by
  intro j hj
  have hh1 : ∀ host, runHost1 w' config commands j host =
      runHost1 w config commands j host :=
    fun host => runHost1_congr w w' config commands j host (hrk j hj) (hpk j hj)
      (hd j hj) (hns j hj) (hsp j hj) (hst j hj) (hra j hj)
  have hh2 : ∀ host, runHost2 w' config commands j host =
      runHost2 w config commands j host :=
    fun host => runHost2_congr w w' config commands j host (hrk j hj) (hpk j hj)
      (hd j hj) (hns j hj) (hsp j hj) (hst j hj) (hra j hj)
  constructor
  · simp only [ExecuteRemoteCommands1, List.getElem?_map, List.getElem?_enum]
    cases config.Hosts[j]? with
    | none => rfl
    | some host => simp [hh1]
  · simp only [ExecuteRemoteCommands2, List.getElem?_map, List.getElem?_enum]
    cases config.Hosts[j]? with
    | none => rfl
    | some host => simp [hh2]

/-- Witness for C6: host index 0's dial fails in `wBad0`, and host index
1's result is identical to the all-healthy run. -/
theorem C6_failure_isolation_witness :
    (ExecuteRemoteCommands1 wBad0 cfgPw ["c"])[1]? =
      (ExecuteRemoteCommands1 wOk cfgPw ["c"])[1]? ∧
    (ExecuteRemoteCommands2 wBad0 cfgPw ["c"])[1]? =
      (ExecuteRemoteCommands2 wOk cfgPw ["c"])[1]? :=
  C6_failure_isolation wOk wBad0 cfgPw ["c"] 0
    (fun _ _ => rfl) (fun _ _ => rfl)
    (fun j hj => funext fun _ => by simp [wBad0, wOk, hj])
    (fun _ _ => rfl) (fun _ _ => rfl) (fun _ _ => rfl) (fun _ _ => rfl)
    1 (by decide)

/-- C7: credential selection — when a key path is configured the key is the
authentication method (the configured password is irrelevant and password
authentication is never selected); when only a password is configured the
password is selected; when neither is usable, each host's unit fails
cleanly with the per-host terminal error `no auth method` while the run
still returns one result per host. -/
theorem C7_credential_selection (w : SSHWorld) (config : SSHConfig)
    (commands : List String) (i : Nat) (host : String) :
    (config.KeyPath ≠ "" →
      (∀ p, chooseAuth w i { config with Password := p } = chooseAuth w i config) ∧
      (∀ s, chooseAuth w i config ≠ .ok (.password s)) ∧
      (∀ key, w.readKey i = .ok key → w.parseKey i key = .ok () →
        chooseAuth w i config = .ok (.publicKeys))) ∧
    (config.KeyPath = "" → config.Password ≠ "" →
      chooseAuth w i config = .ok (.password config.Password)) ∧
    (config.KeyPath = "" → config.Password = "" →
      runHost1 w config commands i host =
        { Hostname := host, Output := "", Error := some ("no auth method") } ∧
      runHost2 w config commands i host =
        { Hostname := host, Output := "",
          Error := some ("dial " ++ host ++ ": " ++ "no auth method") } ∧
      (ExecuteRemoteCommands1 w config commands).length = config.Hosts.length ∧
      (ExecuteRemoteCommands2 w config commands).length = config.Hosts.length) := by
  refine ⟨?_, ?_, ?_⟩
  · intro hk
    refine ⟨?_, ?_, ?_⟩
    · intro p
      simp [chooseAuth, hk]
    · intro s
      simp only [chooseAuth]
      rw [if_pos hk]
      split
      · simp
      · split
        · simp
        · simp
    · intro key hrk hpk
      simp only [chooseAuth]
      rw [if_pos hk]
      simp [hrk, hpk]
  · intro hk hp
    simp [chooseAuth, hk, hp]
  · intro hk hp
    have hca : chooseAuth w i config = .error ("no auth method") := by
      simp [chooseAuth, hk, hp]
    refine ⟨?_, ?_, ?_, ?_⟩
    · simp [runHost1, hca]
    · simp [runHost2, setupSSHClient, hca]
    · simp [ExecuteRemoteCommands1, List.enum_length]
    · simp [ExecuteRemoteCommands2, List.enum_length]

/-- Witness for C7 on the credential-free configuration. -/
theorem C7_credential_selection_witness :
    runHost1 wOk cfgNoAuth ["c"] 0 "h" =
      { Hostname := "h", Output := "", Error := some ("no auth method") } :=
  ((C7_credential_selection wOk cfgNoAuth ["c"] 0 "h").2.2 rfl rfl).1

/-- C8 (counterexample): with no usable credential configured, the inline
version returns the terminal error `no auth method` while the refactored
version wraps it as `dial h: no auth method`, so the two versions return
different result multisets for the same capability table and input. -/
theorem C8_counterexample :
    ExecuteRemoteCommands1 wOk cfgNoAuth ["c"] =
      [{ Hostname := "h", Output := "", Error := some ("no auth method") }] ∧
    ExecuteRemoteCommands2 wOk cfgNoAuth ["c"] =
      [{ Hostname := "h", Output := "",
         Error := some ("dial h: no auth method") }] ∧
    ¬ List.Perm (ExecuteRemoteCommands1 wOk cfgNoAuth ["c"])
        (ExecuteRemoteCommands2 wOk cfgNoAuth ["c"]) := by
  refine ⟨rfl, rfl, ?_⟩
  intro hperm
  have h1 := List.singleton_perm_singleton.mp hperm
  exact absurd h1 (by decide)

/-- C8 (amended): the two versions return the same results whenever every
host's credential selection succeeds and every session creation, stdout
pipe and command start succeeds.  (They diverge otherwise: the refactored
version wraps credential errors in `dial <host>:`, turns session and pipe
failures into inline notes instead of terminal errors, and prefixes
start-failure notes with `start command:`.) -/
theorem C8_amended_equivalence (w : SSHWorld) (config : SSHConfig)
    (commands : List String)
    (hauth : ∀ i, i < config.Hosts.length → ∃ a, chooseAuth w i config = .ok a)
    (hns : ∀ i j, w.newSession i j = .ok ())
    (hsp : ∀ i j, w.stdoutPipe i j = .ok ())
    (hst : ∀ i j, w.start i j = .ok ()) :
    ExecuteRemoteCommands1 w config commands =
      ExecuteRemoteCommands2 w config commands := by
  simp only [ExecuteRemoteCommands1, ExecuteRemoteCommands2]
  apply List.map_congr_left
  intro p hp
  obtain ⟨a, ha⟩ := hauth p.1 (List.fst_lt_of_mem_enum hp)
  simp only [runHost1, runHost2, setupSSHClient, ha]
  cases hdial : w.dial p.1 (formatAddr p.2 config.Port) with
  | error e => rfl
  | ok u =>
    cases u
    rw [runCommands1_ok w p.1 p.2 commands.enum ""
      (fun q _ => ⟨hns p.1 q.1, hsp p.1 q.1⟩)]
    rw [runCommands2_acc]
    have hentry : ∀ q ∈ commands.enum, entry1 w p.1 q = entry2 w p.1 q := by
      intro q _
      simp only [entry1, entry2, executeCommand, hns p.1 q.1, hsp p.1 q.1,
        hst p.1 q.1]
    rw [List.map_congr_left hentry]

/-- Witness for the amended C8 on a fully healthy two-host run. -/
theorem C8_amended_equivalence_witness :
    ExecuteRemoteCommands1 wOk cfgPw ["c"] =
      ExecuteRemoteCommands2 wOk cfgPw ["c"] :=
  C8_amended_equivalence wOk cfgPw ["c"]
    (fun _ _ => ⟨.password "p", rfl⟩)
    (fun _ _ => rfl) (fun _ _ => rfl) (fun _ _ => rfl)

end Routine
